import Mathlib

set_option maxRecDepth 100000

/-
Verification development for the TeleVM repository (src/virtio/src/net.rs,
src/cpu/src/lib.rs).  The definitions below are a shallow embedding of the
virtio-net control/data-path code and of the vCPU KVM execution loop; each
definition is translated from the corresponding Rust function.  Machine
integers are modelled as Nat (the code under consideration never relies on
wraparound); Rust panics (out-of-bounds indexing) are modelled as the `none`
case of an `Option` result; fallible functions return `Option`/`Except`.
-/

namespace TeleVM

/-! ## Byte-level helpers (little-endian, as on the riscv64 target) -/

/-- Little-endian decoding of the first four bytes of a list, as filling a
`u32` via `as_mut_bytes` does in `get_buf_and_discard`. -/
def leU32 (bs : List Nat) : Nat :=
  bs.getD 0 0 + 256 * bs.getD 1 0 + 65536 * bs.getD 2 0 + 16777216 * bs.getD 3 0

/-- Little-endian byte serialization of a `u16` field of a packed struct. -/
def le16 (n : Nat) : List Nat := [n % 256, n / 256 % 256]

/-- Little-endian byte serialization of a `u32` field of a packed struct. -/
def le32 (n : Nat) : List Nat :=
  [n % 256, n / 256 % 256, n / 65536 % 256, n / 16777216 % 256]

/-! ## Constants from net.rs and the virtio crate -/

/-- The Mac Address length (`MAC_ADDR_LEN` in net.rs). -/
def MAC_ADDR_LEN : Nat := 6

/-- The max "multicast + unicast" mac address table length
(`CTRL_MAC_TABLE_LEN` in net.rs). -/
def CTRL_MAC_TABLE_LEN : Nat := 64

/-- Modelled from the spec: `VIRTIO_NET_OK` (ack byte `OK = 0`), imported by
net.rs from the virtio crate whose source is not in src/. -/
def VIRTIO_NET_OK : Nat := 0

/-- Modelled from the spec: `VIRTIO_NET_ERR` (ack byte `ERR = 1`), imported by
net.rs from the virtio crate whose source is not in src/. -/
def VIRTIO_NET_ERR : Nat := 1

/-- Modelled from the spec: the `MQ` control class number
(`VIRTIO_NET_CTRL_MQ`, virtio standard value 4), imported by net.rs from the
virtio crate whose source is not in src/. -/
def VIRTIO_NET_CTRL_MQ : Nat := 4

/-- Modelled from the spec: the `PAIRS_SET` command number
(`VIRTIO_NET_CTRL_MQ_VQ_PAIRS_SET`, virtio standard value 0), imported by
net.rs from the virtio crate whose source is not in src/. -/
def VIRTIO_NET_CTRL_MQ_VQ_PAIRS_SET : Nat := 0

/-- Modelled from the spec: minimum accepted queue-pair count
(`VIRTIO_NET_CTRL_MQ_VQ_PAIRS_MIN`); the spec says a `PAIRS_SET` request is
accepted iff `1 <= pairs <= 32`. The constant is imported by net.rs from the
virtio crate whose source is not in src/. -/
def VIRTIO_NET_CTRL_MQ_VQ_PAIRS_MIN : Nat := 1

/-- Modelled from the spec: maximum accepted queue-pair count
(`VIRTIO_NET_CTRL_MQ_VQ_PAIRS_MAX`); the spec says a `PAIRS_SET` request is
accepted iff `1 <= pairs <= 32`. The constant is imported by net.rs from the
virtio crate whose source is not in src/. -/
def VIRTIO_NET_CTRL_MQ_VQ_PAIRS_MAX : Nat := 32

/-- Modelled from the spec: the virtio feature bit `VIRTIO_F_VERSION_1`
(standard value 32), imported by net.rs from the virtio crate whose source is
not in src/. -/
def VIRTIO_F_VERSION_1 : Nat := 32

/-- Modelled from the spec: the virtio-net feature bit
`VIRTIO_NET_F_CTRL_MAC_ADDR` (standard value 23), imported by net.rs from the
virtio crate whose source is not in src/. -/
def VIRTIO_NET_F_CTRL_MAC_ADDR : Nat := 23

/-- Modelled from the spec: the virtio-net feature bit `VIRTIO_NET_F_MAC`
(standard value 5), imported by net.rs from the virtio crate whose source is
not in src/. -/
def VIRTIO_NET_F_MAC : Nat := 5

/-- Modelled from the spec: `virtio_has_feature(features, fbit)` tests whether
bit `fbit` of the feature word is set; the helper lives in the virtio crate
whose source is not in src/. -/
def virtio_has_feature (features : Nat) (fbit : Nat) : Bool :=
  features.testBit fbit

/-! ## VirtioNetConfig (net.rs, `#[repr(C, packed)] struct VirtioNetConfig`) -/

/-- Configuration space of the virtio-net device: `mac[6]`, `status u16`,
`max_virtqueue_pairs u16`, `mtu u16`, `speed u32`, `duplex u8`
(`VirtioNetConfig` in net.rs; packed, so its byte size is 17). -/
structure VirtioNetConfig where
  mac : List Nat
  status : Nat
  max_virtqueue_pairs : Nat
  mtu : Nat
  speed : Nat
  duplex : Nat
deriving Repr, DecidableEq

/-- Byte serialization of the packed `VirtioNetConfig` struct, as
`self.config_space.as_bytes()` produces it. -/
def configBytes (c : VirtioNetConfig) : List Nat :=
  c.mac ++ le16 c.status ++ le16 c.max_virtqueue_pairs ++ le16 c.mtu
    ++ le32 c.speed ++ [c.duplex]

/-- Virtio device errors relevant to config-space access
(`VirtioError::DevConfigOverflow(offset, len)`). -/
inductive VirtioError where
  | DevConfigOverflow (offset : Nat) (len : Nat)
deriving Repr, DecidableEq

/-- Whether an `Except` result is the success case (Rust `Result::is_ok`). -/
def exOk {α : Type} (e : Except VirtioError α) : Bool :=
  match e with
  | .ok _ => true
  | .error _ => false

/-- `Net::read_config` from net.rs: the caller buffer is represented by its
length `dataLen`; on success the bytes written into it are returned.  The
bound is `offset + data.len() <= config_slice.len()` with
`config_slice = config_space.as_bytes()`. -/
def read_config (c : VirtioNetConfig) (offset : Nat) (dataLen : Nat) :
    Except VirtioError (List Nat) :=
  if offset + dataLen ≤ (configBytes c).length then
    .ok (((configBytes c).drop offset).take dataLen)
  else
    .error (.DevConfigOverflow offset (configBytes c).length)

/-- `Net::write_config` from net.rs.  The bound is
`offset + data.len() <= MAC_ADDR_LEN` (not the config length); when the guest
negotiated neither `CTRL_MAC_ADDR` nor `VERSION_1` and the data differs from
the current bytes, the bytes are copied into the config space (the write
region lies inside the 6 mac bytes because of the bound). -/
def write_config (c : VirtioNetConfig) (driver_features : Nat) (offset : Nat)
    (data : List Nat) : Except VirtioError VirtioNetConfig :=
  if offset + data.length ≤ MAC_ADDR_LEN then
    if !virtio_has_feature driver_features VIRTIO_NET_F_CTRL_MAC_ADDR
        && !virtio_has_feature driver_features VIRTIO_F_VERSION_1
        && data != ((configBytes c).drop offset).take data.length then
      .ok { c with mac := c.mac.take offset ++ data ++ c.mac.drop (offset + data.length) }
    else
      .ok c
  else
    .error (.DevConfigOverflow offset (configBytes c).length)

/-! ## RX filter state (net.rs, `CtrlRxMode`, `CtrlMacInfo`, `CtrlInfo`) -/

/-- The control mode used for packet receive filtering (`CtrlRxMode`). -/
structure CtrlRxMode where
  promisc : Bool
  all_multi : Bool
  all_uni : Bool
  no_multi : Bool
  no_uni : Bool
  no_bcast : Bool
deriving Repr, DecidableEq

/-- Default `CtrlRxMode`: promiscuous on, everything else off. -/
def CtrlRxMode.init : CtrlRxMode := ⟨true, false, false, false, false, false⟩

/-- The mac information used to filter incoming packets (`CtrlMacInfo`); a mac
address `[u8; 6]` is modelled as a list of 6 bytes. -/
structure CtrlMacInfo where
  uni_mac_table : List (List Nat)
  uni_mac_of : Bool
  multi_mac_table : List (List Nat)
  multi_mac_of : Bool
deriving Repr, DecidableEq

/-- `CtrlInfo` from net.rs.  The `vlan_map : HashMap<u16, u32>` is modelled as
an association list; the shared `Arc<Mutex<VirtioNetState>>` is modelled by
the `config_space` it holds (the filter only reads `config_space.mac`). -/
structure CtrlInfo where
  rx_mode : CtrlRxMode
  mac_info : CtrlMacInfo
  vlan_map : List (Nat × Nat)
  config_space : VirtioNetConfig
deriving Repr, DecidableEq

/-- Broadcast address `0xff:0xff:0xff:0xff:0xff:0xff` (`bcast` in
`filter_packets`). -/
def bcastAddr : List Nat := [0xff, 0xff, 0xff, 0xff, 0xff, 0xff]

/-- The unicast/multicast part of `CtrlInfo::filter_packets` (everything after
the VLAN check; the code falls through to it both when no VLAN tag matched and
when the VID bit was found set).  Slice accesses `buf[..6]` are modelled with
an explicit bounds check returning `none` for the Rust panic; the Rust `||` is
short-circuiting, so `buf[..6]` is only reached (and can only panic) where the
code reaches it. -/
def filterMacPhase (info : CtrlInfo) (buf : List Nat) : Option Bool :=
  if buf.getD 0 0 &&& 0x01 > 0 then
    if buf.length < MAC_ADDR_LEN then none
    else if buf.take MAC_ADDR_LEN = bcastAddr then some info.rx_mode.no_bcast
    else if info.rx_mode.no_multi then some true
    else if info.rx_mode.all_multi || info.mac_info.multi_mac_of then some false
    else if info.mac_info.multi_mac_table.contains (buf.take MAC_ADDR_LEN) then some false
    else some true
  else
    if info.rx_mode.no_uni then some true
    else if info.rx_mode.all_uni then some false
    else if info.mac_info.uni_mac_of then some false
    else if buf.length < MAC_ADDR_LEN then none
    else if buf.take MAC_ADDR_LEN = info.config_space.mac then some false
    else if info.mac_info.uni_mac_table.contains (buf.take MAC_ADDR_LEN) then some false
    else some true

/-- `CtrlInfo::filter_packets` from net.rs.  Returns `some true` when the
packet is filtered out (dropped), `some false` when it is accepted, and `none`
when the code panics on an out-of-bounds index: the code compares
`buf[..2]` with `[0x81, 0x00]` and, on that branch, reads `buf[14]` and
`buf[15]` (`u16::from_be_bytes`), so a buffer shorter than 16 bytes panics
there. -/
def filter_packets (info : CtrlInfo) (buf : List Nat) : Option Bool :=
  if info.rx_mode.promisc then some false
  else if buf.length < 2 then none
  else if buf.take 2 = [0x81, 0x00] then
    -- vid = u16::from_be_bytes([buf[14], buf[15]]); value = vlan_map lookup or 0
    if buf.length < 16 then none
    else if ((info.vlan_map.lookup ((256 * buf.getD 14 0 + buf.getD 15 0) >>> 5)).getD 0)
        &&& (1 <<< ((256 * buf.getD 14 0 + buf.getD 15 0) &&& 0x1f)) = 0 then some true
    else filterMacPhase info buf
  else filterMacPhase info buf

/-! ## `CtrlInfo::set_mac_table` (net.rs) -/

/-- The mac-copy loop of `set_mac_table`: `for i in 0..entries` copy
`macs[offset..offset + MAC_ADDR_LEN]` into the table. -/
def readMacs (entries : Nat) (macs : List Nat) : List (List Nat) :=
  match entries with
  | 0 => []
  | n + 1 => macs.take MAC_ADDR_LEN :: readMacs n (macs.drop MAC_ADDR_LEN)

/-- One iteration of the `for i in 0..2` loop of `set_mac_table`, handling one
table.  `of` is the current overflow flag of the table, `mac_table_len` the value
the code subtracts from `CTRL_MAC_TABLE_LEN` (0 for the unicast pass, the new
unicast table length for the multicast pass), `data` the remaining
device-readable payload bytes.  Returns the new table, new overflow flag and
remaining payload, or `none` when the code bails with an error (payload too
short for the entry count or for the 4 entry-count bytes). -/
def setMacTableOne (of : Bool) (mac_table_len : Nat) (data : List Nat) :
    Option (List (List Nat) × Bool × List Nat) :=
  -- entries = leU32 (data.take 4); rest = data.drop 4; size = entries * MAC_ADDR_LEN
  if data.length < 4 then none
  else if leU32 (data.take 4) = 0 then some ([], of, data.drop 4)
  else if (data.drop 4).length < leU32 (data.take 4) * MAC_ADDR_LEN then none
  else if CTRL_MAC_TABLE_LEN - mac_table_len < leU32 (data.take 4) then
    some ([], true, (data.drop 4).drop (leU32 (data.take 4) * MAC_ADDR_LEN))
  else
    some (readMacs (leU32 (data.take 4)) ((data.drop 4).take (leU32 (data.take 4) * MAC_ADDR_LEN)),
      of, (data.drop 4).drop (leU32 (data.take 4) * MAC_ADDR_LEN))

/-- `CtrlInfo::set_mac_table` from net.rs: first the unicast pass, then the
multicast pass with `mac_table_len = uni_mac_table.len()` (the freshly written
unicast table).  Mutation through `&mut` persists when a later step bails, so
the function returns the (possibly partially updated) `CtrlInfo` together
with `some VIRTIO_NET_OK` on success or `none` for the bail-out `Err`. -/
def set_mac_table (info : CtrlInfo) (data : List Nat) : CtrlInfo × Option Nat :=
  match setMacTableOne info.mac_info.uni_mac_of 0 data with
  | none => (info, none)
  | some (uniT, uniOf, rest) =>
    match setMacTableOne info.mac_info.multi_mac_of uniT.length rest with
    | none =>
      ({ info with mac_info := { info.mac_info with
          uni_mac_table := uniT, uni_mac_of := uniOf } }, none)
    | some (multiT, multiOf, _) =>
      ({ info with mac_info := { info.mac_info with
          uni_mac_table := uniT, uni_mac_of := uniOf,
          multi_mac_table := multiT, multi_mac_of := multiOf } }, some VIRTIO_NET_OK)

/-- The declared unicast entry count of a `TABLE_SET` payload (its first four
bytes, little-endian). -/
def uniDeclared (data : List Nat) : Nat := leU32 (data.take 4)

/-- The payload bytes remaining for the multicast pass of `set_mac_table`:
every successful unicast pass consumes the 4 count bytes plus
`entries * MAC_ADDR_LEN` mac bytes. -/
def multiData (data : List Nat) : List Nat :=
  data.drop (4 + uniDeclared data * MAC_ADDR_LEN)

/-- The declared multicast entry count of a `TABLE_SET` payload. -/
def multiDeclared (data : List Nat) : Nat := leU32 ((multiData data).take 4)

/-! ## The MQ arm of `NetCtrlHandler::handle_ctrl` (net.rs) -/

/-- First two bytes of a descriptor, read little-endian as
`mem_space.read_object::<u16>(mq_desc.addr)` does; `none` models the read
failing when the descriptor holds fewer than two bytes. -/
def readU16At (descriptor : List Nat) : Option Nat :=
  match descriptor with
  | lo :: hi :: _ => some (lo + 256 * hi)
  | _ => none

/-- The initial ack of the MQ arm: `VIRTIO_NET_ERR` when the command byte of
the control header (flattened byte 1 of the readable descriptors, as
`get_buf_and_discard` reads the header across the iovec) is not
`VQ_PAIRS_SET`, else `VIRTIO_NET_OK`. -/
def mqAck0 (out_iovec : List (List Nat)) : Nat :=
  if out_iovec.flatten.getD 1 0 ≠ VIRTIO_NET_CTRL_MQ_VQ_PAIRS_SET then VIRTIO_NET_ERR
  else VIRTIO_NET_OK

/-- The `VIRTIO_NET_CTRL_MQ` arm of `NetCtrlHandler::handle_ctrl`, for one
popped chain whose device-readable descriptors are `out_iovec` (each a byte
list) and whose device-writable length is `in_size`.  Includes the
length validation of the handler and the header parse (the header is the first two flattened
bytes: class then cmd; the class is assumed to select this arm).  Afterwards
the code reads the pair count from `elem.out_iovec.get(1)` — the second
descriptor of the original chain — and skips validation entirely when there
is no second descriptor.  Returns `some ack` for the ack byte written back,
`none` when the handler bails with an error. -/
def handle_ctrl_mq (out_iovec : List (List Nat)) (in_size : Nat) : Option Nat :=
  if in_size < 1 ∨ (out_iovec.map List.length).sum < 2 then none
  else
    match out_iovec[1]? with
    | none => some (mqAck0 out_iovec)
    | some d =>
      match readU16At d with
      | none => none
      | some queue_pairs =>
        if queue_pairs < VIRTIO_NET_CTRL_MQ_VQ_PAIRS_MIN
            ∨ VIRTIO_NET_CTRL_MQ_VQ_PAIRS_MAX < queue_pairs then
          some VIRTIO_NET_ERR
        else some (mqAck0 out_iovec)

/-! ## `build_device_config_space` (net.rs) -/

/-- Rust's `str::split(':')` over the characters of the input string (the
`&str` argument is modelled as its character list): splitting the empty
string yields one empty part, and every separator starts a new part. -/
def splitColon : List Char → List (List Char)
  | [] => [[]]
  | c :: rest =>
    if c = ':' then [] :: splitColon rest
    else
      match splitColon rest with
      | [] => [[c]]
      | g :: gs => (c :: g) :: gs

/-- Value of one hexadecimal digit, as `u8::from_str_radix(_, 16)` accepts
them (`0-9`, `a-f`, `A-F`). -/
def hexVal (c : Char) : Option Nat :=
  if '0' ≤ c ∧ c ≤ '9' then some (c.toNat - 48)
  else if 'a' ≤ c ∧ c ≤ 'f' then some (c.toNat - 87)
  else if 'A' ≤ c ∧ c ≤ 'F' then some (c.toNat - 55)
  else none

/-- Digit-accumulation loop of `u8::from_str_radix(s, 16)`: fails on a
non-hex character and on overflow past `u8::MAX`. -/
def parseHexLoop (ds : List Char) (acc : Nat) : Option Nat :=
  match ds with
  | [] => some acc
  | c :: rest =>
    match hexVal c with
    | none => none
    | some v =>
      let acc2 := acc * 16 + v
      if 255 < acc2 then none else parseHexLoop rest acc2

/-- `u8::from_str_radix(s, 16)`: an optional leading `+` sign, then at least
one hex digit, with overflow checked against `u8`. -/
def parseHexU8 (s : List Char) : Option Nat :=
  let ds := match s with
    | '+' :: rest => rest
    | _ => s
  if ds = [] then none else parseHexLoop ds 0

/-- The `for (i, s) in mac.split(':')...enumerate()` loop of
`build_device_config_space`: on a parse failure the function returns `0`
(inner `none`); after a successful parse the code assigns `bytes[i] = v`,
which panics (outer `none`) when `i` is past the 6-byte array. -/
def parseMacBytes : List (List Char) → Nat → List Nat → Option (Option (List Nat))
  | [], _, bytes => some (some bytes)
  | s :: rest, i, bytes =>
    match parseHexU8 s with
    | none => some none
    | some v =>
      if i < 6 then parseMacBytes rest (i + 1) (bytes.set i v)
      else none

/-- `build_device_config_space` from net.rs: parses the colon-separated mac
string into a 6-byte array; on any invalid component it returns feature mask
`0` leaving the config untouched, otherwise it copies the bytes into
`device_config.mac` and returns `1 << VIRTIO_NET_F_MAC`.  The outer `none`
models the `bytes[i]` index panic on a string with more than six
components. -/
def build_device_config_space (device_config : VirtioNetConfig)
    (mac : List Char) : Option (VirtioNetConfig × Nat) :=
  match parseMacBytes (splitColon mac) 0 [0, 0, 0, 0, 0, 0] with
  | none => none
  | some none => some (device_config, 0)
  | some (some bytes) =>
    some ({ device_config with mac := bytes }, 1 <<< VIRTIO_NET_F_MAC)

/-- The pair `(config, features)` that `build_device_config_space` produces,
with the panic case mapped to the untouched inputs (only used to state
properties of the non-panicking executions). -/
def bdcsOut (cfg : VirtioNetConfig) (mac : List Char) : VirtioNetConfig × Nat :=
  (build_device_config_space cfg mac).getD (cfg, 0)

/-! ## `CPU::kvm_vcpu_exec` (src/cpu/src/lib.rs) -/

/-- Cpu errors from src/cpu/src/error.rs that `kvm_vcpu_exec` can produce.
The formatted exit-reason string is kept abstract. -/
inductive CpuError where
  | UnhandledKvmExit (id : Nat)
  | VcpuExitReason (id : Nat) (reason : String)
  | NoMachineInterface
deriving Repr, DecidableEq

/-- The KVM exits `kvm_vcpu_exec` dispatches on (`VcpuExit` of kvm-ioctls);
mmio payloads are irrelevant to the dispatch and are omitted. -/
inductive VcpuExitKind where
  | MmioRead
  | MmioWrite
  | SystemEvent (event : Nat) (flags : Nat)
  | FailEntry (reason : Nat) (cpuid : Nat)
  | InternalError
  | Other (desc : String)
deriving Repr, DecidableEq

/-- Outcome of the `self.fd.run()` syscall: a KVM exit or an errno. -/
inductive RunOutcome where
  | ok (exit : VcpuExitKind)
  | err (errno : Nat)
deriving Repr, DecidableEq

/-- Linux errno `EAGAIN`. -/
def EAGAIN : Nat := 11

/-- Linux errno `EINTR`. -/
def EINTR : Nat := 4

/-- `kvm_bindings::KVM_SYSTEM_EVENT_SHUTDOWN`. -/
def KVM_SYSTEM_EVENT_SHUTDOWN : Nat := 1

/-- `kvm_bindings::KVM_SYSTEM_EVENT_RESET`. -/
def KVM_SYSTEM_EVENT_RESET : Nat := 2

/-- Result of one `kvm_vcpu_exec` call: the returned `Result<bool>` and the
values passed to `set_kvm_immediate_exit` during the call. -/
structure KvmExecOutcome where
  result : Except CpuError Bool
  immediate_exit_writes : List Nat
deriving Repr

/-- `CPU::kvm_vcpu_exec` from src/cpu/src/lib.rs, as a function of the vCPU
id, of whether the weak machine reference upgrades, and of the `run()`
outcome.  `guest_shutdown`/`guest_reset` succeed when the machine is present
(their own machine/QMP side effects are outside this model); the shutdown arm
then falls through to `return Ok(false)`, the reset arm returns `Ok(true)`.
On `EINTR` the code calls `set_kvm_immediate_exit(0)` and falls through to
the final `Ok(true)`; on `EAGAIN` it only falls through; any other errno is
`CpuError::UnhandledKvmExit`. -/
def kvm_vcpu_exec (id : Nat) (vm_present : Bool) (run : RunOutcome) :
    KvmExecOutcome :=
  if !vm_present then ⟨.error .NoMachineInterface, []⟩
  else
    match run with
    | .ok .MmioRead => ⟨.ok true, []⟩
    | .ok .MmioWrite => ⟨.ok true, []⟩
    | .ok (.SystemEvent event _flags) =>
      if event = KVM_SYSTEM_EVENT_SHUTDOWN then ⟨.ok false, []⟩
      else if event = KVM_SYSTEM_EVENT_RESET then ⟨.ok true, []⟩
      else ⟨.ok false, []⟩
    | .ok (.FailEntry _ _) => ⟨.ok false, []⟩
    | .ok .InternalError => ⟨.ok false, []⟩
    | .ok (.Other r) => ⟨.error (.VcpuExitReason id r), []⟩
    | .err errno =>
      if errno = EAGAIN then ⟨.ok true, []⟩
      else if errno = EINTR then ⟨.ok true, [0]⟩
      else ⟨.error (.UnhandledKvmExit id), []⟩

/-! ## `NetIoHandler::handle_tx` (net.rs), as a ring-event trace -/

/-- Outcome of `send_packets` (the `writev` loop): `sent` covers a successful
write and the only-logged error kinds (the code then proceeds to `add_used`);
`wouldBlock` is `ErrorKind::WouldBlock`, which makes `handle_tx` push the
chain back. -/
inductive SendOutcome where
  | sent
  | wouldBlock
deriving Repr, DecidableEq

/-- One available TX descriptor chain, described by what `handle_tx` inspects
of it: whether `out_iovec` is empty, whether every address resolves
(`get_libc_iovecs`), and how `writev` behaves on it. -/
structure TxElem where
  out_iovec_empty : Bool
  host_addr_ok : Bool
  send : SendOutcome
deriving Repr, DecidableEq

/-- Virtqueue ring operations performed by a handler on popped chains. -/
inductive RingEvent where
  | pop
  | add_used (len : Nat)
  | push_back
deriving Repr, DecidableEq

/-- `NetIoHandler::handle_tx` from net.rs as the trace of ring operations it
performs, given the available chains of the queue in order (popping from an empty
list models `desc_num == 0`).  Per iteration the code: pops; bails when
`out_iovec` is empty; increments `tx_packets` and, when
`tx_packets >= queue_size`, rearms the tx eventfd and breaks; bails when an
address fails to resolve; pushes the chain back and returns on
`WouldBlock` (when a tap is attached); otherwise adds the chain to the used
ring with length 0 and loops. -/
def handle_tx (queue_size : Nat) (tap_present : Bool) :
    List TxElem → Nat → List RingEvent
  | [], _ => []
  | e :: rest, tx_packets =>
    RingEvent.pop ::
      (if e.out_iovec_empty then []
       else if queue_size ≤ tx_packets + 1 then []
       else if !e.host_addr_ok then []
       else if tap_present && e.send == SendOutcome.wouldBlock then
         [RingEvent.push_back]
       else
         RingEvent.add_used 0 :: handle_tx queue_size tap_present rest (tx_packets + 1))

/-- Number of `pop` events in a trace. -/
def ringPops (t : List RingEvent) : Nat :=
  t.countP fun e =>
    match e with
    | .pop => true
    | _ => false

/-- Number of events that complete a popped chain (an `add_used` or a
`push_back`). -/
def ringCompletions (t : List RingEvent) : Nat :=
  t.countP fun e =>
    match e with
    | .add_used _ => true
    | .push_back => true
    | _ => false

/-! ## Concrete inputs used by the claim theorems -/

/-- A config space holding the first default mac `52:54:00:12:34:56`. -/
def cfg52 : VirtioNetConfig := ⟨[0x52, 0x54, 0x00, 0x12, 0x34, 0x56], 0, 0, 0, 0, 0⟩

/-- The all-zero config space (`VirtioNetConfig::default()`). -/
def cfg0 : VirtioNetConfig := ⟨[0, 0, 0, 0, 0, 0], 0, 0, 0, 0, 0⟩

/-- Filter state with promiscuous mode off and everything else at its
defaults. -/
def c10Info : CtrlInfo :=
  ⟨⟨false, false, false, false, false, false⟩, ⟨[], false, [], false⟩, [], cfg52⟩

/-- The 14-byte Ethernet-header slice `handle_rx` passes to the filter, for a
frame whose destination mac starts with `0x81 0x00`. -/
def c10Buf : List Nat := [0x81, 0x00] ++ List.replicate 12 0

/-- Filter state with promiscuous off, `no_multi` on, and VID 100 allowed
(`vlan_map[3] = 16 = 1 <<< (100 mod 32)`). -/
def c2xInfo : CtrlInfo :=
  ⟨⟨false, false, false, true, false, false⟩, ⟨[], false, [], false⟩, [(3, 16)], cfg52⟩

/-- A 16-byte buffer whose first two bytes take the VLAN branch and whose
bytes 14-15 encode VID 100 big-endian. -/
def c2xBuf : List Nat := [0x81, 0x00, 0, 0, 0, 0, 0, 0, 0, 0, 0, 0, 0, 0, 0, 100]

/-- Filter state with promiscuous off and an empty vlan map. -/
def c2wInfo : CtrlInfo :=
  ⟨⟨false, false, false, false, false, false⟩, ⟨[], false, [], false⟩, [], cfg52⟩

/-- Filter state before the `TABLE_SET` of the table-overflow scenario:
promiscuous off, all mode bits off, empty tables. -/
def c5Info0 : CtrlInfo :=
  ⟨⟨false, false, false, false, false, false⟩, ⟨[], false, [], false⟩, [], cfg52⟩

/-- `TABLE_SET` payload with `n_uni = 65` (65 zero macs) and `n_multi = 0`. -/
def c5Overflow : List Nat := [65, 0, 0, 0] ++ List.replicate 390 0 ++ [0, 0, 0, 0]

/-- The state after the overflowing `TABLE_SET`: unicast table empty with its
overflow flag set. -/
def c5St1 : CtrlInfo :=
  ⟨⟨false, false, false, false, false, false⟩, ⟨[], true, [], false⟩, [], cfg52⟩

/-- A later well-formed `TABLE_SET` payload repopulating the unicast table
with the single mac `AA:BB:CC:DD:EE:FF` (`n_uni = 1`, `n_multi = 0`). -/
def c5Repop : List Nat := [1, 0, 0, 0, 0xAA, 0xBB, 0xCC, 0xDD, 0xEE, 0xFF, 0, 0, 0, 0]

/-- The state after the repopulating `TABLE_SET`: the table holds the new mac
but the overflow flag is still set. -/
def c5St2 : CtrlInfo :=
  ⟨⟨false, false, false, false, false, false⟩,
    ⟨[[0xAA, 0xBB, 0xCC, 0xDD, 0xEE, 0xFF]], true, [], false⟩, [], cfg52⟩

/-- A 14-byte header slice of a unicast frame for `02:00:00:00:00:00`, which
is neither the device mac nor the repopulated table entry. -/
def c5Frame : List Nat := [2, 0, 0, 0, 0, 0, 0, 0, 0, 0, 0, 0, 0, 0]

/-- Initial filter state (default rx mode) for the table-cap scenario. -/
def c9Info0 : CtrlInfo := ⟨CtrlRxMode.init, ⟨[], false, [], false⟩, [], cfg52⟩

/-- Well-formed `TABLE_SET` payload with `n_uni = 0` and `n_multi = 64`
(64 zero macs): fills the multicast table to the full cap. -/
def c9Data1 : List Nat := [0, 0, 0, 0] ++ [64, 0, 0, 0] ++ List.replicate 384 0

/-- State after `c9Data1`: 64 multicast entries, no unicast entries. -/
def c9St1 : CtrlInfo :=
  ⟨CtrlRxMode.init, ⟨[], false, List.replicate 64 (List.replicate 6 0), false⟩, [], cfg52⟩

/-- Truncated `TABLE_SET` payload: declares `n_uni = 60` with its 360 mac
bytes but then ends, so the multicast pass bails after the unicast table has
already been replaced. -/
def c9Data2 : List Nat := [60, 0, 0, 0] ++ List.replicate 360 0

/-- `TABLE_SET` payload with `n_uni = 65` and `n_multi = 0`, used to witness
the overflow characterization. -/
def c9wData : List Nat := [65, 0, 0, 0] ++ List.replicate 390 0 ++ [0, 0, 0, 0]

/-- State after `c9wData` from `c9Info0`: unicast overflowed and cleared. -/
def c9wSt : CtrlInfo := ⟨CtrlRxMode.init, ⟨[], true, [], false⟩, [], cfg52⟩

/-- The mac string `0:0:0:0:0:0:0` (seven valid components) as characters. -/
def c7Bad : List Char := ['0', ':', '0', ':', '0', ':', '0', ':', '0', ':', '0', ':', '0']

/-- The mac string `52:54:00:12:34:56` as characters. -/
def c7Good : List Char :=
  ['5', '2', ':', '5', '4', ':', '0', '0', ':', '1', '2', ':', '3', '4', ':', '5', '6']

/-- A benign TX chain: non-empty out_iovec, resolvable addresses, successful
writev. -/
def c1Elem : TxElem := ⟨false, true, .sent⟩

/-! ## Helper lemmas -/

/-- The packed config struct serializes to `mac.length + 11` bytes (17 when
the mac is well formed). -/
theorem configBytes_length (c : VirtioNetConfig) :
    (configBytes c).length = c.mac.length + 11 := by
  simp [configBytes, le16, le32]

/-- A list whose 2-prefix is `[a, b]` has head `a`. -/
theorem take_two_eq_head (l : List Nat) (a b : Nat) (h : l.take 2 = [a, b]) :
    l.getD 0 0 = a := by
  cases l with
  | nil => simp at h
  | cons x xs => simp_all

/-- Masking with `1 <<< k` yields 0 exactly on values whose bit `k` is
clear. -/
theorem and_one_shiftLeft_eq_zero (value k : Nat) (h : value.testBit k = false) :
    value &&& (1 <<< k) = 0 := by
  rw [Nat.one_shiftLeft, Nat.and_two_pow, h]
  simp

/-- With the unicast overflow flag set, `filter_packets` accepts every
well-formed unicast header slice (promiscuous and `no_uni` off). -/
theorem filter_accepts_unicast_overflow (info : CtrlInfo) (buf : List Nat)
    (hof : info.mac_info.uni_mac_of = true)
    (hp : info.rx_mode.promisc = false)
    (hnu : info.rx_mode.no_uni = false)
    (hlen : buf.length = 14)
    (heven : buf.getD 0 0 % 2 = 0) :
    filter_packets info buf = some false := by
  have hvlan : ¬ (buf.take 2 = [0x81, 0x00]) := by
    intro hv
    have h0 := take_two_eq_head buf 0x81 0x00 hv
    rw [h0] at heven
    norm_num at heven
  have hbit : ¬ (buf.getD 0 0 &&& 0x01 > 0) := by
    rw [Nat.and_one_is_mod]
    omega
  unfold filter_packets filterMacPhase
  rw [hp, hlen]
  rw [if_neg (by simp), if_neg (by omega), if_neg hvlan, if_neg hbit,
    if_neg (by rw [hnu]; simp), hof]
  cases hau : info.rx_mode.all_uni <;> simp

/-- A successful `setMacTableOne` pass never clears an overflow flag that was
already set. -/
theorem setMacTableOne_of_true (len : Nat) (data : List Nat)
    (t : List (List Nat)) (o : Bool) (r : List Nat)
    (h : setMacTableOne true len data = some (t, o, r)) : o = true := by
  unfold setMacTableOne at h
  split at h
  · exact absurd h (by simp)
  · split at h
    · simp at h
      simp_all
    · split at h
      · exact absurd h (by simp)
      · split at h <;> simp at h <;> simp_all

/-- `set_mac_table` never clears the unicast overflow flag. -/
theorem set_mac_table_uni_of_mono (info : CtrlInfo) (data : List Nat)
    (hof : info.mac_info.uni_mac_of = true) :
    ((set_mac_table info data).1).mac_info.uni_mac_of = true := by
  unfold set_mac_table
  rw [hof]
  split
  · simpa using hof
  · next uniT uniOf rest heq =>
    have ho := setMacTableOne_of_true 0 data uniT uniOf rest heq
    split
    · simpa using ho
    · simpa using ho

/-- The mac-copy loop produces exactly `entries` table entries. -/
theorem readMacs_length (entries : Nat) :
    ∀ macs : List Nat, (readMacs entries macs).length = entries := by
  induction entries with
  | zero => intro macs; rfl
  | succ k ih => intro macs; simp [readMacs, ih]

/-- Characterization of a successful `setMacTableOne` pass: the resulting
table respects the remaining capacity, the remaining payload is the input
minus the count bytes and the declared macs, and a declared count exceeding
the remaining capacity leaves the table empty with the overflow flag set. -/
theorem setMacTableOne_some (of : Bool) (len : Nat) (data : List Nat)
    (t : List (List Nat)) (o : Bool) (r : List Nat)
    (h : setMacTableOne of len data = some (t, o, r)) :
    t.length ≤ CTRL_MAC_TABLE_LEN - len
    ∧ r = data.drop (4 + leU32 (data.take 4) * MAC_ADDR_LEN)
    ∧ (CTRL_MAC_TABLE_LEN - len < leU32 (data.take 4) → t = [] ∧ o = true) := by
  unfold setMacTableOne at h
  split at h
  · exact absurd h (by simp)
  · split at h
    · next hzero =>
      simp at h
      obtain ⟨h1, h2, h3⟩ := h
      subst h1
      subst h2
      subst h3
      refine ⟨by simp, ?_, ?_⟩
      · rw [hzero]
        simp
      · intro hc
        rw [hzero] at hc
        exact absurd hc (by omega)
    · split at h
      · exact absurd h (by simp)
      · split at h
        · next hover =>
          simp at h
          obtain ⟨h1, h2, h3⟩ := h
          subst h1
          subst h2
          subst h3
          exact ⟨by simp, rfl, fun _ => ⟨rfl, rfl⟩⟩
        · next hfit =>
          simp at h
          obtain ⟨h1, h2, h3⟩ := h
          subst h1
          subst h2
          subst h3
          refine ⟨?_, rfl, ?_⟩
          · rw [readMacs_length]
            omega
          · intro hc
            exact absurd hc hfit

/-- The mac-parsing loop cannot reach the out-of-bounds assignment while the
index plus the number of remaining components stays within the 6-byte
array. -/
theorem parseMacBytes_ne_none (parts : List (List Char)) :
    ∀ (i : Nat) (bytes : List Nat), i + parts.length ≤ 6 →
      parseMacBytes parts i bytes ≠ none := by
  induction parts with
  | nil =>
    intro i bytes h
    simp [parseMacBytes]
  | cons s rest ih =>
    intro i bytes h
    unfold parseMacBytes
    cases hp : parseHexU8 s with
    | none => simp
    | some v =>
      have hi : i < 6 := by
        simp only [List.length_cons] at h
        omega
      show (if i < 6 then parseMacBytes rest (i + 1) (bytes.set i v) else none) ≠ none
      rw [if_pos hi]
      exact ih (i + 1) (bytes.set i v) (by simp only [List.length_cons] at h; omega)

/-- The mac-parsing loop preserves the 6-byte length of the byte array. -/
theorem parseMacBytes_length (parts : List (List Char)) :
    ∀ (i : Nat) (bytes : List Nat) (bs : List Nat), bytes.length = 6 →
      parseMacBytes parts i bytes = some (some bs) → bs.length = 6 := by
  induction parts with
  | nil =>
    intro i bytes bs hb h
    simp [parseMacBytes] at h
    rw [← h]
    exact hb
  | cons s rest ih =>
    intro i bytes bs hb h
    unfold parseMacBytes at h
    cases hp : parseHexU8 s with
    | none => rw [hp] at h; simp at h
    | some v =>
      rw [hp] at h
      have h2 : (if i < 6 then parseMacBytes rest (i + 1) (bytes.set i v) else none)
          = some (some bs) := h
      split at h2
      · exact ih (i + 1) (bytes.set i v) bs (by simp [hb]) h2
      · simp at h2

/-! ## Claim theorems -/

/-- C1: the claim states that every descriptor chain popped from any
virtqueue receives exactly one `add_used` unless `push_back` returned it.
The code violates this on the TX fairness-yield path: evaluating `handle_tx`
with `queue_size = 2` on two benign available chains pops both chains but
completes only the first — the second chain is popped and then the loop
breaks on `tx_packets >= queue_size`, issuing neither `add_used` nor
`push_back` for it. -/
theorem c1_tx_yield_drops_popped_chain :
    handle_tx 2 true [c1Elem, c1Elem] 0
      = [RingEvent.pop, RingEvent.add_used 0, RingEvent.pop]
    ∧ ringPops (handle_tx 2 true [c1Elem, c1Elem] 0) = 2
    ∧ ringCompletions (handle_tx 2 true [c1Elem, c1Elem] 0) = 1 := by
  refine ⟨rfl, rfl, rfl⟩

/-- C2 (amended): with promiscuous mode off, on a buffer of at least 16 bytes
whose first two bytes are `0x81 0x00` (the condition the code actually tests:
the first two buffer bytes, not the Ethertype at offset 12), if bit
`vid mod 32` of `vlan_map[vid / 32]` is clear — `vid` being the big-endian
16-bit value of bytes 14 and 15 — then the filter drops the frame; hence any
accepted frame on this branch has its VID bit set.  The converse of the
original claim fails: a set bit only lets the frame fall through to the
unicast/multicast filtering (see the counterexample), and on the actual RX
path the buffer has only 14 bytes, so this branch panics (see C10). -/
theorem c2_vlan_bit_clear_drops (info : CtrlInfo) (buf : List Nat)
    (hp : info.rx_mode.promisc = false)
    (hlen : 16 ≤ buf.length)
    (hvlan : buf.take 2 = [0x81, 0x00])
    (hbit : Nat.testBit
        ((info.vlan_map.lookup ((256 * buf.getD 14 0 + buf.getD 15 0) / 32)).getD 0)
        ((256 * buf.getD 14 0 + buf.getD 15 0) % 32) = false) :
    filter_packets info buf = some true := by
  have hdiv : (256 * buf.getD 14 0 + buf.getD 15 0) >>> 5
      = (256 * buf.getD 14 0 + buf.getD 15 0) / 32 := by
    rw [Nat.shiftRight_eq_div_pow]
  have hmod : (256 * buf.getD 14 0 + buf.getD 15 0) &&& 0x1f
      = (256 * buf.getD 14 0 + buf.getD 15 0) % 32 := by
    have h := Nat.and_pow_two_sub_one_eq_mod (256 * buf.getD 14 0 + buf.getD 15 0) 5
    have e1 : (2 : Nat) ^ 5 - 1 = 31 := by norm_num
    have e2 : (2 : Nat) ^ 5 = 32 := by norm_num
    rw [e1, e2] at h
    exact h
  have hzero : ((info.vlan_map.lookup ((256 * buf.getD 14 0 + buf.getD 15 0) >>> 5)).getD 0)
      &&& (1 <<< ((256 * buf.getD 14 0 + buf.getD 15 0) &&& 0x1f)) = 0 := by
    rw [hdiv, hmod]
    exact and_one_shiftLeft_eq_zero _ _ hbit
  unfold filter_packets
  rw [hp]
  rw [if_neg (by simp), if_neg (by omega), if_pos hvlan, if_neg (by omega), if_pos hzero]

/-- C2 witness: on a concrete 16-byte buffer carrying VID 100 with an empty
vlan map (bit clear), the theorem yields a drop. -/
theorem c2_vlan_bit_clear_drops_witness :
    c2wInfo.rx_mode.promisc = false ∧ 16 ≤ c2xBuf.length
    ∧ c2xBuf.take 2 = [0x81, 0x00]
    ∧ filter_packets c2wInfo c2xBuf = some true :=
  ⟨rfl, by decide, by decide,
    c2_vlan_bit_clear_drops c2wInfo c2xBuf rfl (by decide) (by decide) (by decide)⟩

/-- C2 counterexample: VID 100 (below 4096) has its bit set in the vlan map,
yet the filter drops the frame — `no_multi` is on, and the code treats the
frame as multicast because its first byte `0x81` is odd.  Acceptance is
therefore not equivalent to the VID bit being set, refuting the claim as
stated. -/
theorem c2_vlan_accept_not_iff_counterexample :
    Nat.testBit
      ((c2xInfo.vlan_map.lookup ((256 * c2xBuf.getD 14 0 + c2xBuf.getD 15 0) / 32)).getD 0)
      ((256 * c2xBuf.getD 14 0 + c2xBuf.getD 15 0) % 32) = true
    ∧ 256 * c2xBuf.getD 14 0 + c2xBuf.getD 15 0 < 4096
    ∧ filter_packets c2xInfo c2xBuf = some true := by
  refine ⟨by decide, by decide, by decide⟩

/-- C3 (amended): the two config accessors are bounds-checked against
different regions.  `read_config` succeeds exactly when
`offset + data.len()` stays within the 17-byte packed config struct (the
struct is 17 bytes — 6 mac, three u16, one u32, one u8 — not 14), and
`write_config` succeeds exactly when `offset + data.len()` stays within the
first `MAC_ADDR_LEN = 6` bytes; both fail with `DevConfigOverflow`
otherwise.  Consequently `read_config(17, [0])` fails and `read_config(16,
[0])` succeeds, while `read_config(14, [0])` succeeds and `write_config(7,
[0])` fails, contrary to the claimed common 14-byte bound. -/
theorem c3_config_bounds (c : VirtioNetConfig) (hmac : c.mac.length = 6)
    (offset dataLen driver_features : Nat) (data : List Nat) :
    (exOk (read_config c offset dataLen) = true ↔ offset + dataLen ≤ 17)
    ∧ (exOk (write_config c driver_features offset data) = true
        ↔ offset + data.length ≤ MAC_ADDR_LEN) := by
  have hlen : (configBytes c).length = 17 := by rw [configBytes_length, hmac]
  constructor
  · unfold read_config
    rw [hlen]
    split <;> simp_all [exOk]
  · unfold write_config
    split
    · split <;> simp_all [exOk]
    · simp_all [exOk]

/-- C3 witness: the bounds instantiated at the default config, offset 16. -/
theorem c3_config_bounds_witness :
    cfg0.mac.length = 6
    ∧ (exOk (read_config cfg0 16 1) = true ↔ 16 + 1 ≤ 17)
    ∧ (exOk (write_config cfg0 0 16 [0]) = true ↔ 16 + 1 ≤ MAC_ADDR_LEN) := by
  have h := c3_config_bounds cfg0 (by rfl) 16 1 0 [0]
  exact ⟨by rfl, h.1, h.2⟩

/-- C3 counterexample: `read_config(14, [0])` succeeds although the claim
says any access past the claimed 14-byte bound fails, and `write_config(7,
[0])` fails although `7 + 1 <= 14`. -/
theorem c3_config_bounds_counterexample :
    ¬ (14 + 1 ≤ 14) ∧ exOk (read_config cfg0 14 1) = true
    ∧ 7 + 1 ≤ 14 ∧ exOk (write_config cfg0 0 7 [0]) = false := by
  refine ⟨by decide, by decide, by decide, by decide⟩

/-- C5 (amended): a `TABLE_SET` with `n_uni = 65`, `n_multi = 0` is
acknowledged OK, sets `uni_mac_of` and leaves `uni_mac_table` empty; from
then on every unicast frame is accepted by the filter (promiscuous and
`no_uni` off) — and this accept-all state is permanent, not merely "until
the table is repopulated": no later `set_mac_table` ever clears the
`uni_mac_of` flag (the code only ever sets it), so a successful repopulation
does not end the accept-all state (see the counterexample). -/
theorem c5_table_overflow_accept_all :
    set_mac_table c5Info0 c5Overflow = (c5St1, some VIRTIO_NET_OK)
    ∧ c5St1.mac_info.uni_mac_of = true
    ∧ c5St1.mac_info.uni_mac_table = []
    ∧ (∀ info buf, info.mac_info.uni_mac_of = true → info.rx_mode.promisc = false →
        info.rx_mode.no_uni = false → buf.length = 14 → buf.getD 0 0 % 2 = 0 →
        filter_packets info buf = some false)
    ∧ (∀ info data, info.mac_info.uni_mac_of = true →
        ((set_mac_table info data).1).mac_info.uni_mac_of = true) := by
  refine ⟨by rfl, rfl, rfl, ?_, ?_⟩
  · intro info buf h1 h2 h3 h4 h5
    exact filter_accepts_unicast_overflow info buf h1 h2 h3 h4 h5
  · intro info data h
    exact set_mac_table_uni_of_mono info data h

/-- C5 witness: in the overflowed state a foreign unicast frame is accepted,
and the overflow flag survives a further `TABLE_SET`. -/
theorem c5_table_overflow_accept_all_witness :
    c5St1.mac_info.uni_mac_of = true
    ∧ filter_packets c5St1 c5Frame = some false
    ∧ ((set_mac_table c5St1 c5Repop).1).mac_info.uni_mac_of = true :=
  ⟨rfl,
    c5_table_overflow_accept_all.2.2.2.1 c5St1 c5Frame rfl rfl rfl rfl (by decide),
    c5_table_overflow_accept_all.2.2.2.2 c5St1 c5Repop rfl⟩

/-- C5 counterexample: after the overflow, a later well-formed `TABLE_SET`
successfully repopulates the unicast table (ack OK, the new mac is in the
table, `all_uni` clear), yet a unicast frame that is neither the device mac
nor in the table is still accepted — the claimed end of the accept-all state
does not happen. -/
theorem c5_repopulation_keeps_accept_all_counterexample :
    set_mac_table c5St1 c5Repop = (c5St2, some VIRTIO_NET_OK)
    ∧ c5St2.mac_info.uni_mac_table = [[0xAA, 0xBB, 0xCC, 0xDD, 0xEE, 0xFF]]
    ∧ c5St2.rx_mode.all_uni = false
    ∧ c5Frame.take 6 ≠ [0xAA, 0xBB, 0xCC, 0xDD, 0xEE, 0xFF]
    ∧ c5Frame.take 6 ≠ c5St2.config_space.mac
    ∧ filter_packets c5St2 c5Frame = some false := by
  refine ⟨by rfl, rfl, rfl, by decide, by decide, by rfl⟩

/-- C6 (amended): the ack of an MQ `PAIRS_SET` request is `OK` iff
`1 <= pairs <= 32` only for chains that carry the u16 pair count at the start
of the second device-readable descriptor — the layout the code expects, since
it reads `elem.out_iovec.get(1)` rather than the payload after the header.
For such chains the equivalence holds for every pair value and trailing
layout.  It does not hold "regardless of layout": a chain carrying the same
bytes in a single descriptor skips validation entirely (see the
counterexample). -/
theorem c6_mq_pairs_ack (lo hi : Nat) (extra : List Nat) (rest : List (List Nat))
    (in_size : Nat) (hin : 1 ≤ in_size) :
    handle_ctrl_mq
      ([VIRTIO_NET_CTRL_MQ, VIRTIO_NET_CTRL_MQ_VQ_PAIRS_SET] :: (lo :: hi :: extra) :: rest)
      in_size
      = some (if VIRTIO_NET_CTRL_MQ_VQ_PAIRS_MIN ≤ lo + 256 * hi
              ∧ lo + 256 * hi ≤ VIRTIO_NET_CTRL_MQ_VQ_PAIRS_MAX
              then VIRTIO_NET_OK else VIRTIO_NET_ERR) := by
  unfold handle_ctrl_mq
  rw [if_neg]
  · have hack : mqAck0 ([VIRTIO_NET_CTRL_MQ, VIRTIO_NET_CTRL_MQ_VQ_PAIRS_SET]
        :: (lo :: hi :: extra) :: rest) = VIRTIO_NET_OK := by
      unfold mqAck0
      rw [if_neg]
      simp [List.flatten_cons, VIRTIO_NET_CTRL_MQ, VIRTIO_NET_CTRL_MQ_VQ_PAIRS_SET]
    simp only [List.getElem?_cons_succ, List.getElem?_cons_zero, readU16At, hack]
    split
    · next hlt =>
      rw [if_neg]
      unfold VIRTIO_NET_CTRL_MQ_VQ_PAIRS_MIN VIRTIO_NET_CTRL_MQ_VQ_PAIRS_MAX at hlt ⊢
      omega
    · next hge =>
      rw [if_pos]
      unfold VIRTIO_NET_CTRL_MQ_VQ_PAIRS_MIN VIRTIO_NET_CTRL_MQ_VQ_PAIRS_MAX at hge ⊢
      omega
  · push_neg
    refine ⟨by omega, ?_⟩
    simp [List.sum_cons]

/-- C6 witness: a two-descriptor chain with `pairs = 3` is acked OK. -/
theorem c6_mq_pairs_ack_witness :
    1 ≤ 1
    ∧ handle_ctrl_mq [[VIRTIO_NET_CTRL_MQ, VIRTIO_NET_CTRL_MQ_VQ_PAIRS_SET], [3, 0]] 1
        = some VIRTIO_NET_OK := by
  refine ⟨Nat.le_refl 1, ?_⟩
  rw [c6_mq_pairs_ack 3 0 [] [] 1 (Nat.le_refl 1)]
  decide

/-- C6 counterexample: a single-descriptor chain carrying header plus
`pairs = 0` is acked OK although `0` is outside `[1, 32]` — the claim, which
demands an ERR ack for out-of-range pair counts regardless of layout, is
false. -/
theorem c6_mq_single_descriptor_counterexample :
    handle_ctrl_mq [[VIRTIO_NET_CTRL_MQ, VIRTIO_NET_CTRL_MQ_VQ_PAIRS_SET, 0, 0]] 1
      = some VIRTIO_NET_OK
    ∧ ¬ (VIRTIO_NET_CTRL_MQ_VQ_PAIRS_MIN ≤ 0) := by
  refine ⟨by rfl, by decide⟩

/-- C7 (amended): `build_device_config_space` is a pure function of its
inputs and, for every input string splitting into at most six
colon-separated components, it returns without panicking; when it returns
`0` the config space is untouched, and when it returns a non-zero mask the
mask is `1 <<< VIRTIO_NET_F_MAC` and exactly the 6-byte parsed mac has been
written, every other field unchanged.  The unrestricted claim is false: a
string with seven valid hex components makes `bytes[i]` panic (see the
counterexample). -/
theorem c7_build_device_config_space_total (cfg : VirtioNetConfig) (mac : List Char)
    (hparts : (splitColon mac).length ≤ 6) :
    build_device_config_space cfg mac ≠ none
    ∧ ((bdcsOut cfg mac).2 = 0 → (bdcsOut cfg mac).1 = cfg)
    ∧ ((bdcsOut cfg mac).2 ≠ 0 →
        (bdcsOut cfg mac).2 = 1 <<< VIRTIO_NET_F_MAC
        ∧ (bdcsOut cfg mac).1.mac.length = 6
        ∧ (bdcsOut cfg mac).1 = { cfg with mac := (bdcsOut cfg mac).1.mac }) := by
  cases hp : parseMacBytes (splitColon mac) 0 [0, 0, 0, 0, 0, 0] with
  | none =>
    exact absurd hp (parseMacBytes_ne_none (splitColon mac) 0 [0, 0, 0, 0, 0, 0]
      (by simpa using hparts))
  | some o =>
    cases o with
    | none =>
      have hb : build_device_config_space cfg mac = some (cfg, 0) := by
        unfold build_device_config_space
        rw [hp]
      refine ⟨by rw [hb]; simp, ?_, ?_⟩
      · intro _
        simp [bdcsOut, hb]
      · intro h
        exact absurd (by simp [bdcsOut, hb]) h
    | some bs =>
      have hb : build_device_config_space cfg mac
          = some ({ cfg with mac := bs }, 1 <<< VIRTIO_NET_F_MAC) := by
        unfold build_device_config_space
        rw [hp]
      have hlen : bs.length = 6 :=
        parseMacBytes_length (splitColon mac) 0 [0, 0, 0, 0, 0, 0] bs (by rfl) hp
      refine ⟨by rw [hb]; simp, ?_, ?_⟩
      · intro h
        simp [bdcsOut, hb, VIRTIO_NET_F_MAC] at h
      · intro _
        refine ⟨by simp [bdcsOut, hb], by simp [bdcsOut, hb, hlen], by simp [bdcsOut, hb]⟩

/-- C7 witness: the default mac string has six components and parses without
panicking. -/
theorem c7_build_device_config_space_total_witness :
    (splitColon c7Good).length ≤ 6
    ∧ build_device_config_space cfg0 c7Good ≠ none :=
  ⟨by decide, (c7_build_device_config_space_total cfg0 c7Good (by decide)).1⟩

/-- C7 counterexample: the string `0:0:0:0:0:0:0` has seven valid hex
components, so the loop reaches `bytes[6]` and panics — the function is not
total on all input strings as claimed. -/
theorem c7_seven_components_panic_counterexample :
    build_device_config_space cfg0 c7Bad = none := by
  rfl

/-- C8: when the KVM run syscall fails, `kvm_vcpu_exec` clears the
immediate-exit flag (writes 0) and returns continue on `EINTR`, returns
continue without touching the flag on `EAGAIN`, and fails with
`UnhandledKvmExit` on any other errno. -/
theorem c8_kvm_run_errno_dispatch (id errno : Nat)
    (h1 : errno ≠ EAGAIN) (h2 : errno ≠ EINTR) :
    kvm_vcpu_exec id true (.err EINTR) = ⟨.ok true, [0]⟩
    ∧ kvm_vcpu_exec id true (.err EAGAIN) = ⟨.ok true, []⟩
    ∧ kvm_vcpu_exec id true (.err errno) = ⟨.error (.UnhandledKvmExit id), []⟩ := by
  refine ⟨rfl, rfl, ?_⟩
  unfold kvm_vcpu_exec
  simp [h1, h2]

/-- C8 witness: errno 5 (EIO) is neither EAGAIN nor EINTR and yields
`UnhandledKvmExit`. -/
theorem c8_kvm_run_errno_dispatch_witness :
    (5 : Nat) ≠ EAGAIN ∧ (5 : Nat) ≠ EINTR
    ∧ kvm_vcpu_exec 0 true (.err 5) = ⟨.error (.UnhandledKvmExit 0), []⟩ :=
  ⟨by decide, by decide, (c8_kvm_run_errno_dispatch 0 5 (by decide) (by decide)).2.2⟩

/-- C9 (amended): after any `TABLE_SET` that completes with an ack (does not
bail mid-request), the combined size of the two mac tables is at most 64,
and a declared count that would overflow the remaining capacity of either
table leaves that table empty with its overflow flag set.  The unrestricted
claim — that the cap holds after any sequence of control operations — is
false: a truncated `TABLE_SET` payload replaces the unicast table and then
bails before the multicast pass, leaving up to 124 combined entries (see the
counterexample). -/
theorem c9_mac_table_cap (info : CtrlInfo) (data : List Nat) (st : CtrlInfo) (ack : Nat)
    (h : set_mac_table info data = (st, some ack)) :
    st.mac_info.uni_mac_table.length + st.mac_info.multi_mac_table.length ≤ CTRL_MAC_TABLE_LEN
    ∧ (CTRL_MAC_TABLE_LEN < uniDeclared data →
        st.mac_info.uni_mac_table = [] ∧ st.mac_info.uni_mac_of = true)
    ∧ (CTRL_MAC_TABLE_LEN - st.mac_info.uni_mac_table.length < multiDeclared data →
        st.mac_info.multi_mac_table = [] ∧ st.mac_info.multi_mac_of = true) := by
  unfold set_mac_table at h
  split at h
  · exact absurd h (by simp)
  · next uniT uniOf rest hu =>
    split at h
    · exact absurd h (by simp)
    · next multiT multiOf r2 hm =>
      rw [Prod.mk.injEq] at h
      obtain ⟨hst, -⟩ := h
      obtain ⟨hu1, hu2, hu3⟩ := setMacTableOne_some _ 0 data uniT uniOf rest hu
      obtain ⟨hm1, hm2, hm3⟩ := setMacTableOne_some _ uniT.length rest multiT multiOf r2 hm
      have hrest : multiDeclared data = leU32 (rest.take 4) := by
        unfold multiDeclared multiData uniDeclared
        rw [← hu2]
      subst hst
      dsimp only
      refine ⟨by omega, ?_, ?_⟩
      · intro hc
        exact hu3 (by unfold uniDeclared at hc; omega)
      · intro hc
        rw [hrest] at hc
        exact hm3 hc

/-- C9 witness: the overflowing `TABLE_SET` with `n_uni = 65` yields an
empty unicast table with the flag set and a combined size within the cap. -/
theorem c9_mac_table_cap_witness :
    set_mac_table c9Info0 c9wData = (c9wSt, some VIRTIO_NET_OK)
    ∧ CTRL_MAC_TABLE_LEN < uniDeclared c9wData
    ∧ c9wSt.mac_info.uni_mac_table = []
    ∧ c9wSt.mac_info.uni_mac_of = true
    ∧ c9wSt.mac_info.uni_mac_table.length + c9wSt.mac_info.multi_mac_table.length
        ≤ CTRL_MAC_TABLE_LEN := by
  have h := c9_mac_table_cap c9Info0 c9wData c9wSt VIRTIO_NET_OK (by rfl)
  have hd : CTRL_MAC_TABLE_LEN < uniDeclared c9wData := by decide
  exact ⟨by rfl, hd, (h.2.1 hd).1, (h.2.1 hd).2, h.1⟩

/-- C9 counterexample: fill the multicast table with 64 entries via a
well-formed `TABLE_SET`, then send a truncated `TABLE_SET` declaring 60
unicast macs with nothing after them — the unicast pass replaces the table,
the multicast pass bails, and the combined size reaches 124 > 64, refuting
the invariant as stated. -/
theorem c9_truncated_table_set_counterexample :
    set_mac_table c9Info0 c9Data1 = (c9St1, some VIRTIO_NET_OK)
    ∧ (set_mac_table c9St1 c9Data2).2 = none
    ∧ ((set_mac_table c9St1 c9Data2).1).mac_info.uni_mac_table.length
        + ((set_mac_table c9St1 c9Data2).1).mac_info.multi_mac_table.length = 124
    ∧ ¬ (124 ≤ CTRL_MAC_TABLE_LEN) := by
  refine ⟨by rfl, by rfl, by rfl, by decide⟩

/-- C10: the claim states `filter_packets` returns without panicking on every
14-byte header slice.  The code refutes it: on the 14-byte slice that
`handle_rx` passes, any frame whose first two bytes are `0x81 0x00` takes the
VLAN branch with promiscuous mode off, where the code reads `buf[14]` and
`buf[15]` — out of bounds for a 14-byte slice, a Rust index panic (`none` in
this embedding). -/
theorem c10_filter_panics_on_vlan_header :
    c10Buf.length = 14 ∧ filter_packets c10Info c10Buf = none := by
  constructor
  · rfl
  · rfl

end TeleVM
